import Mathlib

/-!
Verification of the SOCKS4/SOCKS5 header codec (header.go of scrapfly/go-socks5).

The Go source is shallowly embedded: a byte stream is a `List Nat` of values
below 256, Go strings and `net.IP` slices are byte lists, the Go `int` type is
`Int`, and the incremental reader is modelled by explicit state passing of the
remaining stream.  `Parse` mirrors the source function `Parse(r io.Reader)`,
`Header.Bytes` mirrors `(h Header) Bytes()`, `buildPort`/`breakPort` mirror the
port helpers, and `AddrSpec.Address` mirrors `(a AddrSpec) Address()` together
with models of the standard-library collaborators `net.IP.To4`, `net.IP.To16`,
`net.IP.String`, `net.JoinHostPort` and `strconv.Itoa`.
-/

/-- Error result of a single `io.ReadFull` call: `eof` when the stream was
already empty, `unexpectedEOF` when it held some but not all requested bytes. -/
inductive IOErr where
  | eof
  | unexpectedEOF
deriving DecidableEq

/-- The text produced by formatting an `io.ReadFull` error with `%v`. -/
def ioErrString : IOErr → String
  | .eof => "EOF"
  | .unexpectedEOF => "unexpected EOF"

/-- Error values produced by `Parse`: either a `fmt.Errorf` formatted message
string, or the package-level sentinel value `unrecognizedAddrType`. -/
inductive GoErr where
  | errorf (msg : String)
  | unrecognizedAddrType
deriving DecidableEq

/-- Modelled from the spec: the package-level error value `unrecognizedAddrType`
is referenced by `header.go` but defined elsewhere in the repository (not under
the provided sources).  The spec's error taxonomy lists the corresponding
failure as the distinct `UnsupportedAddressType` classification, so the value is
modelled as a sentinel error distinct from every formatted message error. -/
def unrecognizedAddrTypeErr : GoErr := .unrecognizedAddrType

/-- Model of `io.ReadFull(r, buf)` with `len(buf) = n` on a stream holding the
byte list `s`: on success it consumes and returns exactly `n` bytes; on a short
read it consumes everything available and reports `io.EOF` when no byte was
available, `io.ErrUnexpectedEOF` otherwise. -/
def readFull (s : List Nat) (n : Nat) : Except IOErr (List Nat) × List Nat :=
  if n ≤ s.length then (.ok (s.take n), s.drop n)
  else (.error (if s.length = 0 then .eof else .unexpectedEOF), [])

/-- `AddrSpec` from header.go: `FQDN string; IP net.IP; Port int`.  The Go
string and the IP slice are byte lists; the Go `int` is `Int`. -/
structure AddrSpec where
  FQDN : List Nat
  IP : List Nat
  Port : Int
deriving DecidableEq

/-- `Header` from header.go: version, command, reserved byte, address, and the
private `addrType` tag set during parsing. -/
structure Header where
  Version : Nat
  Command : Nat
  Reserved : Nat
  Address : AddrSpec
  addrType : Nat
deriving DecidableEq

/-- `buildPort(hi, lo byte) int`: `(int(hi) << 8) | int(lo)`. -/
def buildPort (hi lo : Nat) : Int := (((hi <<< 8) ||| lo : Nat) : Int)

/-- Go conversion `byte(x)` of an `int`: truncation to the low 8 bits. -/
def goByte (x : Int) : Nat := (x % 256).toNat

/-- Go arithmetic right shift `x >> 8` of an `int` (rounds toward negative
infinity, hence `Int.fdiv`). -/
def goShr8 (x : Int) : Int := Int.fdiv x 256

/-- `breakPort(port int) (hi, lo byte)`: `byte(port >> 8), byte(port)`. -/
def breakPort (port : Int) : Nat × Nat := (goByte (goShr8 port), goByte port)

/-- `Parse` after a successful version/command read, SOCKS4 branch: read 2 port
bytes and 4 IPv4 bytes (`tmp` of length `headPORTLen+net.IPv4len`), then build
the header with `Port = buildPort(tmp[0], tmp[1])` and `IP = tmp[2:]`. -/
def parseSocks4 (version command : Nat) (r : List Nat) : Except GoErr Header × List Nat :=
  match readFull r 6 with
  | (.error e, r) =>
    (.error (.errorf ("failed to get socks4 header port and ip, " ++ ioErrString e)), r)
  | (.ok tmp, r) =>
    (.ok { Version := version, Command := command, Reserved := 0,
           Address := { FQDN := [], IP := tmp.drop 2,
                        Port := buildPort (tmp.getD 0 0) (tmp.getD 1 0) },
           addrType := 0 }, r)

/-- SOCKS5 domain branch: read 1 length byte, then `addrLen+2` bytes; the first
`addrLen` bytes are the FQDN, the last two the port. -/
def parseFqdn (version command reserved atyp : Nat) (r : List Nat) :
    Except GoErr Header × List Nat :=
  match readFull r 1 with
  | (.error e, r) => (.error (.errorf ("failed to get header, " ++ ioErrString e)), r)
  | (.ok t1, r) =>
    let addrLen := t1.getD 0 0
    match readFull r (addrLen + 2) with
    | (.error e, r) => (.error (.errorf ("failed to get header, " ++ ioErrString e)), r)
    | (.ok addr, r) =>
      (.ok { Version := version, Command := command, Reserved := reserved,
             Address := { FQDN := addr.take addrLen, IP := [],
                          Port := buildPort (addr.getD addrLen 0) (addr.getD (addrLen + 1) 0) },
             addrType := atyp }, r)

/-- SOCKS5 IPv4 branch: read `net.IPv4len+2` bytes; first 4 are the address,
last two the port. -/
def parseIPv4 (version command reserved atyp : Nat) (r : List Nat) :
    Except GoErr Header × List Nat :=
  match readFull r 6 with
  | (.error e, r) => (.error (.errorf ("failed to get header, " ++ ioErrString e)), r)
  | (.ok addr, r) =>
    (.ok { Version := version, Command := command, Reserved := reserved,
           Address := { FQDN := [], IP := addr.take 4,
                        Port := buildPort (addr.getD 4 0) (addr.getD 5 0) },
           addrType := atyp }, r)

/-- SOCKS5 IPv6 branch: read `net.IPv6len+2` bytes; first 16 are the address,
last two the port. -/
def parseIPv6 (version command reserved atyp : Nat) (r : List Nat) :
    Except GoErr Header × List Nat :=
  match readFull r 18 with
  | (.error e, r) => (.error (.errorf ("failed to get header, " ++ ioErrString e)), r)
  | (.ok addr, r) =>
    (.ok { Version := version, Command := command, Reserved := reserved,
           Address := { FQDN := [], IP := addr.take 16,
                        Port := buildPort (addr.getD 16 0) (addr.getD 17 0) },
           addrType := atyp }, r)

/-- SOCKS5 branch of `Parse`: read the reserved byte and the address-type byte,
then dispatch on the address type (domain = 3, IPv4 = 1, IPv6 = 4); any other
type yields the sentinel `unrecognizedAddrType`. -/
def parseSocks5 (version command : Nat) (r : List Nat) : Except GoErr Header × List Nat :=
  match readFull r 2 with
  | (.error e, r) =>
    (.error (.errorf ("failed to get header RSV and address type, " ++ ioErrString e)), r)
  | (.ok tmp, r) =>
    let reserved := tmp.getD 0 0
    let atyp := tmp.getD 1 0
    if atyp = 3 then parseFqdn version command reserved atyp r
    else if atyp = 1 then parseIPv4 version command reserved atyp r
    else if atyp = 4 then parseIPv6 version command reserved atyp r
    else (.error unrecognizedAddrTypeErr, r)

/-- `Parse(r io.Reader) (Header, error)` from header.go, over the remaining
stream.  It returns the outcome together with the stream left unconsumed (Go
advances the reader even on failure). -/
def Parse (r0 : List Nat) : Except GoErr Header × List Nat :=
  match readFull r0 2 with
  | (.error e, r) =>
    (.error (.errorf ("failed to get header version and command, " ++ ioErrString e)), r)
  | (.ok tmp, r) =>
    let version := tmp.getD 0 0
    let command := tmp.getD 1 0
    if version ≠ 5 ∧ version ≠ 4 then
      (.error (.errorf ("unrecognized SOCKS version[" ++ toString version ++ "]")), r)
    else if command ≠ 1 ∧ command ≠ 2 ∧ command ≠ 3 then
      (.error (.errorf ("unrecognized command[" ++ toString command ++ "]")), r)
    else if version = 4 ∧ command = 3 then
      (.error (.errorf "wrong version for command"), r)
    else if version = 4 then parseSocks4 version command r
    else if version = 5 then parseSocks5 version command r
    else (.ok { Version := version, Command := command, Reserved := 0,
                Address := { FQDN := [], IP := [], Port := 0 }, addrType := 0 }, r)

/-- The 12-byte v4-in-v6 marker used by `net.IPv4` and `net.IP.To4`. -/
def v4InV6 : List Nat := [0, 0, 0, 0, 0, 0, 0, 0, 0, 0, 255, 255]

/-- Model of `net.IP.To4`: a 4-byte address is returned unchanged, a 16-byte
v4-mapped address is narrowed to its last 4 bytes, anything else yields nil. -/
def ipTo4 (ip : List Nat) : List Nat :=
  if ip.length = 4 then ip
  else if ip.length = 16 ∧ (ip.take 10).all (· == 0) ∧ ip.getD 10 0 = 255 ∧ ip.getD 11 0 = 255
  then ip.drop 12
  else []

/-- Model of `net.IP.To16`: a 4-byte address is widened with the v4-in-v6
marker, a 16-byte address is returned unchanged, anything else yields nil. -/
def ipTo16 (ip : List Nat) : List Nat :=
  if ip.length = 4 then v4InV6 ++ ip
  else if ip.length = 16 then ip
  else []

/-- `(h Header) Bytes()` from header.go: version, command, then the
version-dependent layout; for SOCKS5 the address type tag selects the address
encoding and the two port bytes follow the address. -/
def Header.Bytes (h : Header) : List Nat :=
  let hiPort := (breakPort h.Address.Port).1
  let loPort := (breakPort h.Address.Port).2
  [h.Version, h.Command] ++
    (if h.Version = 4 then
      [hiPort, loPort] ++ h.Address.IP
    else if h.Version = 5 then
      [h.Reserved, h.addrType] ++
        (if h.addrType = 3 then
          (h.Address.FQDN.length % 256) :: h.Address.FQDN
        else if h.addrType = 1 then
          ipTo4 h.Address.IP
        else if h.addrType = 4 then
          ipTo16 h.Address.IP
        else []) ++ [hiPort, loPort]
    else [])

/-- The byte list underlying an ASCII Lean string literal. -/
def strBytes (s : String) : List Nat := s.data.map Char.toNat

/-- Model of `strconv.Itoa` applied to a Go `int`, as a byte string. -/
def itoa (i : Int) : List Nat := strBytes (toString i)

/-- Decimal rendering of a natural number, as a byte string. -/
def natDec (n : Nat) : List Nat := strBytes (Nat.repr n)

/-- Model of `net.JoinHostPort`: brackets the host when it contains a colon. -/
def joinHostPort (host port : List Nat) : List Nat :=
  if 58 ∈ host then [91] ++ host ++ [93, 58] ++ port
  else host ++ [58] ++ port

/-- Lowercase hex digit for a nibble (ASCII code). -/
def hexDigitChar (n : Nat) : Nat := if n < 10 then 48 + n else 87 + n

/-- Model of net's `hexString`: two hex digits per byte. -/
def hexStringBytes (b : List Nat) : List Nat :=
  (b.map (fun x => [hexDigitChar (x / 16 % 16), hexDigitChar (x % 16)])).flatten

/-- Model of net's `appendHex` for one 16-bit group: lowercase hex without
leading zeros, a single `0` for the zero group. -/
def hexGroup (v : Nat) : List Nat := (Nat.toDigits 16 v).map Char.toNat

/-- Dotted-quad rendering of a 4-byte address. -/
def dottedQuad (p4 : List Nat) : List Nat :=
  natDec (p4.getD 0 0) ++ [46] ++ natDec (p4.getD 1 0) ++ [46] ++
    natDec (p4.getD 2 0) ++ [46] ++ natDec (p4.getD 3 0)

/-- The eight big-endian 16-bit groups of a 16-byte address. -/
def v6Groups (p : List Nat) : List Nat :=
  (List.range 8).map (fun i => (p.getD (2 * i) 0) <<< 8 ||| p.getD (2 * i + 1) 0)

/-- Length of the zero run at the head of a group list. -/
def zeroRun : List Nat → Nat
  | [] => 0
  | g :: t => if g = 0 then zeroRun t + 1 else 0

/-- The first longest run of zero groups `(start, stop)`, mirroring the scan in
`net.IP.String` (strict improvement keeps the first longest run; `(0, 0)` when
no zero group exists). -/
def bestZeroRun (gs : List Nat) : Nat × Nat :=
  (List.range 8).foldl (fun best i =>
    let L := zeroRun (gs.drop i)
    if 1 ≤ L ∧ best.2 - best.1 < L then (i, i + L) else best) (0, 0)

/-- The group-printing loop of `net.IP.String`: groups joined by `:`, with the
elided zero run printed as `::` (the run is only used when it spans at least two
groups).  `fuel` bounds the recursion; 16 suffices for 8 groups. -/
def renderLoop (gs : List Nat) (e0 e1 : Nat) (hasRun : Bool) : Nat → Nat → List Nat
  | 0, _ => []
  | fuel + 1, i =>
    if 8 ≤ i then []
    else if hasRun = true ∧ i = e0 then
      [58, 58] ++
        (if 8 ≤ e1 then []
         else hexGroup (gs.getD e1 0) ++ renderLoop gs e0 e1 hasRun fuel (e1 + 1))
    else
      (if i = 0 then [] else [58]) ++ hexGroup (gs.getD i 0) ++
        renderLoop gs e0 e1 hasRun fuel (i + 1)

/-- Model of `net.IP.String`: `<nil>` for an empty address, dotted quad for a
4-byte or v4-mapped address, `?`-prefixed hex for an invalid length, and the
RFC 5952 group form for a 16-byte address. -/
def ipString (ip : List Nat) : List Nat :=
  if ip.length = 0 then strBytes "<nil>"
  else if (ipTo4 ip).length = 4 then dottedQuad (ipTo4 ip)
  else if ip.length ≠ 16 then 63 :: hexStringBytes ip
  else
    let gs := v6Groups ip
    let best := bestZeroRun gs
    renderLoop gs best.1 best.2 (decide (1 < best.2 - best.1)) 16 0

/-- `(a AddrSpec) Address()` from header.go: prefer the IP-based form, fall
back to the FQDN. -/
def AddrSpec.Address (a : AddrSpec) : List Nat :=
  if a.IP.length ≠ 0 then joinHostPort (ipString a.IP) (itoa a.Port)
  else joinHostPort a.FQDN (itoa a.Port)

/-- Boolean marker for the truncation-style error messages of `Parse`: every
short-read failure message starts with the letter `f` (of `failed to get`) and
no other error of `Parse` does. -/
def truncErrB (e : GoErr) : Bool :=
  match e with
  | .errorf m => m.data.head? == some 'f'
  | .unrecognizedAddrType => false

deriving instance DecidableEq for Except

/-! ### List utilities -/

theorem getD_take_lt (l : List Nat) {n i : Nat} (h : i < n) :
    (l.take n).getD i 0 = l.getD i 0 := by
  simp [List.getD_eq_getElem?_getD, List.getElem?_take_of_lt h]

theorem getD_mem (l : List Nat) {i : Nat} (h : i < l.length) : l.getD i 0 ∈ l := by
  rw [List.getD_eq_getElem?_getD, List.getElem?_eq_getElem h]
  exact List.getElem_mem h

theorem take_two_eq (l : List Nat) (h : 2 ≤ l.length) :
    l.take 2 = [l.getD 0 0, l.getD 1 0] := by
  match l, h with
  | a :: b :: t, _ => simp

theorem take_succ_getD (l : List Nat) {n : Nat} (h : n < l.length) :
    l.take (n + 1) = l.take n ++ [l.getD n 0] := by
  rw [List.take_succ, List.getElem?_eq_getElem h]
  simp [List.getD_eq_getElem?_getD, List.getElem?_eq_getElem h]

theorem take_add_eq (l : List Nat) (m n : Nat) :
    l.take (m + n) = l.take m ++ (l.drop m).take n := by
  induction m generalizing l with
  | zero => simp
  | succ m ih =>
    cases l with
    | nil => simp
    | cons a t => simp [Nat.succ_add, ih]

theorem take_take_eq (l : List Nat) {m n : Nat} (h : m ≤ n) :
    (l.take n).take m = l.take m := by
  induction m generalizing l n with
  | zero => simp
  | succ m ih =>
    cases l with
    | nil => simp
    | cons a t =>
      match n, h with
      | n + 1, h => simp [ih t (Nat.le_of_succ_le_succ h)]

theorem getD_drop_eq (l : List Nat) (n i : Nat) :
    (l.drop n).getD i 0 = l.getD (n + i) 0 := by
  induction n generalizing l with
  | zero => simp
  | succ n ih =>
    cases l with
    | nil => simp
    | cons a t => simp [Nat.succ_add, ih t]

/-! ### readFull equations -/

theorem readFull_le {s : List Nat} {n : Nat} (h : n ≤ s.length) :
    readFull s n = (.ok (s.take n), s.drop n) := by
  simp [readFull, h]

theorem readFull_short {s : List Nat} {n : Nat} (h : s.length < n) :
    readFull s n =
      (.error (if s.length = 0 then .eof else .unexpectedEOF), []) := by
  unfold readFull
  rw [if_neg (by omega)]

theorem readFull_two (a b : Nat) (t : List Nat) :
    readFull (a :: b :: t) 2 = (.ok [a, b], t) := by
  simp [readFull_le (by simp : 2 ≤ (a :: b :: t).length)]

theorem readFull_one (a : Nat) (t : List Nat) :
    readFull (a :: t) 1 = (.ok [a], t) := by
  simp [readFull_le (by simp : 1 ≤ (a :: t).length)]

/-! ### Port arithmetic -/

theorem buildPort_eq (hi lo : Nat) (h : lo < 256) :
    buildPort hi lo = ((256 * hi + lo : Nat) : Int) := by
  unfold buildPort
  congr 1
  rw [Nat.shiftLeft_eq, Nat.mul_comm]
  exact (Nat.mul_add_lt_is_or (i := 8) h hi).symm

theorem buildPort_nonneg (hi lo : Nat) : 0 ≤ buildPort hi lo := Int.ofNat_nonneg _

theorem buildPort_le (hi lo : Nat) (h1 : hi < 256) (h2 : lo < 256) :
    buildPort hi lo ≤ 65535 := by
  rw [buildPort_eq hi lo h2]
  have : 256 * hi + lo ≤ 65535 := by omega
  exact_mod_cast this

theorem breakPort_buildPort (hi lo : Nat) (h1 : hi < 256) (h2 : lo < 256) :
    breakPort (buildPort hi lo) = (hi, lo) := by
  rw [buildPort_eq hi lo h2]
  unfold breakPort goByte goShr8
  rw [Int.fdiv_eq_ediv _ (by norm_num)]
  have e1 : (((256 * hi + lo : Nat) : Int) / 256 % 256).toNat = hi := by omega
  have e2 : (((256 * hi + lo : Nat) : Int) % 256).toNat = lo := by omega
  rw [e1, e2]

/-! ### To4 / To16 -/

theorem ipTo4_len4 {ip : List Nat} (h : ip.length = 4) : ipTo4 ip = ip := by
  simp [ipTo4, h]

theorem ipTo16_len16 {ip : List Nat} (h : ip.length = 16) : ipTo16 ip = ip := by
  simp [ipTo16, h]

theorem ipTo4_len_or_nil (ip : List Nat) : (ipTo4 ip).length = 4 ∨ ipTo4 ip = [] := by
  unfold ipTo4
  split
  · left; assumption
  · split
    · next h _ => left; simp [List.length_drop]; omega
    · right; rfl

theorem ipTo16_len_or_nil (ip : List Nat) : (ipTo16 ip).length = 16 ∨ ipTo16 ip = [] := by
  unfold ipTo16
  split
  · left; simp [v4InV6]; omega
  · split
    · left; assumption
    · right; rfl

/-! ### Parse dispatch equations -/

theorem parse_nil :
    Parse [] = (.error (.errorf "failed to get header version and command, EOF"), []) := rfl

theorem parse_one (b : Nat) :
    Parse [b] =
      (.error (.errorf "failed to get header version and command, unexpected EOF"), []) := rfl

theorem parse_vbad {b0 : Nat} (h : b0 ≠ 5 ∧ b0 ≠ 4) (b1 : Nat) (t : List Nat) :
    Parse (b0 :: b1 :: t) =
      (.error (.errorf ("unrecognized SOCKS version[" ++ toString b0 ++ "]")), t) := by
  simp only [Parse, readFull_two]
  simp [h]

theorem parse_cbad {b0 b1 : Nat} (hv : b0 = 5 ∨ b0 = 4)
    (hc : b1 ≠ 1 ∧ b1 ≠ 2 ∧ b1 ≠ 3) (t : List Nat) :
    Parse (b0 :: b1 :: t) =
      (.error (.errorf ("unrecognized command[" ++ toString b1 ++ "]")), t) := by
  simp only [Parse, readFull_two]
  rcases hv with hv | hv <;> subst hv <;> simp [hc]

theorem parse_v4c3 (t : List Nat) :
    Parse (4 :: 3 :: t) = (.error (.errorf "wrong version for command"), t) := by
  simp [Parse, readFull_two]

theorem parse_v4 {b1 : Nat} (hc : b1 = 1 ∨ b1 = 2) (t : List Nat) :
    Parse (4 :: b1 :: t) = parseSocks4 4 b1 t := by
  simp only [Parse, readFull_two]
  rcases hc with hc | hc <;> subst hc <;> simp

theorem parse_v5 {b1 : Nat} (hc : b1 = 1 ∨ b1 = 2 ∨ b1 = 3) (t : List Nat) :
    Parse (5 :: b1 :: t) = parseSocks5 5 b1 t := by
  simp only [Parse, readFull_two]
  rcases hc with hc | hc | hc <;> subst hc <;> simp

theorem parseSocks5_cons (v c r0 a : Nat) (t : List Nat) :
    parseSocks5 v c (r0 :: a :: t) =
      (if a = 3 then parseFqdn v c r0 a t
       else if a = 1 then parseIPv4 v c r0 a t
       else if a = 4 then parseIPv6 v c r0 a t
       else (.error unrecognizedAddrTypeErr, t)) := by
  simp [parseSocks5, readFull_two]

theorem parseSocks5_short {t : List Nat} (h : t.length < 2) (v c : Nat) :
    parseSocks5 v c t =
      (.error (.errorf ("failed to get header RSV and address type, " ++
        ioErrString (if t.length = 0 then .eof else .unexpectedEOF))), []) := by
  simp [parseSocks5, readFull_short h]

theorem parseSocks4_ok {t : List Nat} (h : 6 ≤ t.length) (v c : Nat) :
    parseSocks4 v c t =
      (.ok { Version := v, Command := c, Reserved := 0,
             Address := { FQDN := [], IP := (t.take 6).drop 2,
                          Port := buildPort (t.getD 0 0) (t.getD 1 0) },
             addrType := 0 }, t.drop 6) := by
  simp [parseSocks4, readFull_le h, getD_take_lt _ (by omega : (0:Nat) < 6),
    getD_take_lt _ (by omega : (1:Nat) < 6)]

theorem parseSocks4_short {t : List Nat} (h : t.length < 6) (v c : Nat) :
    parseSocks4 v c t =
      (.error (.errorf ("failed to get socks4 header port and ip, " ++
        ioErrString (if t.length = 0 then .eof else .unexpectedEOF))), []) := by
  simp [parseSocks4, readFull_short h]

theorem parseFqdn_nil (v c r0 a : Nat) :
    parseFqdn v c r0 a [] = (.error (.errorf "failed to get header, EOF"), []) := rfl

theorem parseFqdn_ok {n : Nat} {t : List Nat} (h : n + 2 ≤ t.length) (v c r0 a : Nat) :
    parseFqdn v c r0 a (n :: t) =
      (.ok { Version := v, Command := c, Reserved := r0,
             Address := { FQDN := t.take n, IP := [],
                          Port := buildPort (t.getD n 0) (t.getD (n + 1) 0) },
             addrType := a }, t.drop (n + 2)) := by
  simp only [parseFqdn, readFull_one, List.getD_cons_zero, readFull_le h]
  rw [take_take_eq t (by omega : n ≤ n + 2),
    getD_take_lt t (by omega : n < n + 2),
    getD_take_lt t (by omega : n + 1 < n + 2)]

theorem parseFqdn_cons_short {n : Nat} {t : List Nat} (h : t.length < n + 2) (v c r0 a : Nat) :
    parseFqdn v c r0 a (n :: t) =
      (.error (.errorf ("failed to get header, " ++
        ioErrString (if t.length = 0 then .eof else .unexpectedEOF))), []) := by
  simp [parseFqdn, readFull_one, readFull_short h]

theorem parseIPv4_ok {t : List Nat} (h : 6 ≤ t.length) (v c r0 a : Nat) :
    parseIPv4 v c r0 a t =
      (.ok { Version := v, Command := c, Reserved := r0,
             Address := { FQDN := [], IP := t.take 4,
                          Port := buildPort (t.getD 4 0) (t.getD 5 0) },
             addrType := a }, t.drop 6) := by
  simp only [parseIPv4, readFull_le h]
  rw [take_take_eq t (by omega : 4 ≤ 6),
    getD_take_lt t (by omega : 4 < 6), getD_take_lt t (by omega : 5 < 6)]

theorem parseIPv4_short {t : List Nat} (h : t.length < 6) (v c r0 a : Nat) :
    parseIPv4 v c r0 a t =
      (.error (.errorf ("failed to get header, " ++
        ioErrString (if t.length = 0 then .eof else .unexpectedEOF))), []) := by
  simp [parseIPv4, readFull_short h]

theorem parseIPv6_ok {t : List Nat} (h : 18 ≤ t.length) (v c r0 a : Nat) :
    parseIPv6 v c r0 a t =
      (.ok { Version := v, Command := c, Reserved := r0,
             Address := { FQDN := [], IP := t.take 16,
                          Port := buildPort (t.getD 16 0) (t.getD 17 0) },
             addrType := a }, t.drop 18) := by
  simp only [parseIPv6, readFull_le h]
  rw [take_take_eq t (by omega : 16 ≤ 18),
    getD_take_lt t (by omega : 16 < 18), getD_take_lt t (by omega : 17 < 18)]

theorem parseIPv6_short {t : List Nat} (h : t.length < 18) (v c r0 a : Nat) :
    parseIPv6 v c r0 a t =
      (.error (.errorf ("failed to get header, " ++
        ioErrString (if t.length = 0 then .eof else .unexpectedEOF))), []) := by
  simp [parseIPv6, readFull_short h]

/-! ### Bytes equations -/

theorem bytes_v4 (c r0 a : Nat) (fq ip : List Nat) (p : Int) :
    Header.Bytes { Version := 4, Command := c, Reserved := r0,
                   Address := { FQDN := fq, IP := ip, Port := p }, addrType := a } =
      [4, c, (breakPort p).1, (breakPort p).2] ++ ip := by
  simp [Header.Bytes]

theorem bytes_v5_fqdn (c r0 : Nat) (fq ip : List Nat) (p : Int) :
    Header.Bytes { Version := 5, Command := c, Reserved := r0,
                   Address := { FQDN := fq, IP := ip, Port := p }, addrType := 3 } =
      [5, c, r0, 3, fq.length % 256] ++ fq ++ [(breakPort p).1, (breakPort p).2] := by
  simp [Header.Bytes]

theorem bytes_v5_ipv4 (c r0 : Nat) (fq ip : List Nat) (p : Int) :
    Header.Bytes { Version := 5, Command := c, Reserved := r0,
                   Address := { FQDN := fq, IP := ip, Port := p }, addrType := 1 } =
      [5, c, r0, 1] ++ ipTo4 ip ++ [(breakPort p).1, (breakPort p).2] := by
  simp [Header.Bytes]

theorem bytes_v5_ipv6 (c r0 : Nat) (fq ip : List Nat) (p : Int) :
    Header.Bytes { Version := 5, Command := c, Reserved := r0,
                   Address := { FQDN := fq, IP := ip, Port := p }, addrType := 4 } =
      [5, c, r0, 4] ++ ipTo16 ip ++ [(breakPort p).1, (breakPort p).2] := by
  simp [Header.Bytes]

/-! ### Success-shape inversion for Parse -/

/-- Every successful parse has one of the four wire shapes: SOCKS4, SOCKS5
IPv4, SOCKS5 IPv6, or SOCKS5 domain. -/
theorem parse_ok_shape {B : List Nat} {hd : Header} {rest : List Nat}
    (h : Parse B = (.ok hd, rest)) :
    (∃ c t, B = 4 :: c :: t ∧ (c = 1 ∨ c = 2) ∧ 6 ≤ t.length ∧
      hd = { Version := 4, Command := c, Reserved := 0,
             Address := { FQDN := [], IP := (t.take 6).drop 2,
                          Port := buildPort (t.getD 0 0) (t.getD 1 0) },
             addrType := 0 } ∧ rest = t.drop 6) ∨
    (∃ c r0 t, B = 5 :: c :: r0 :: 1 :: t ∧ (c = 1 ∨ c = 2 ∨ c = 3) ∧ 6 ≤ t.length ∧
      hd = { Version := 5, Command := c, Reserved := r0,
             Address := { FQDN := [], IP := t.take 4,
                          Port := buildPort (t.getD 4 0) (t.getD 5 0) },
             addrType := 1 } ∧ rest = t.drop 6) ∨
    (∃ c r0 t, B = 5 :: c :: r0 :: 4 :: t ∧ (c = 1 ∨ c = 2 ∨ c = 3) ∧ 18 ≤ t.length ∧
      hd = { Version := 5, Command := c, Reserved := r0,
             Address := { FQDN := [], IP := t.take 16,
                          Port := buildPort (t.getD 16 0) (t.getD 17 0) },
             addrType := 4 } ∧ rest = t.drop 18) ∨
    (∃ c r0 n t, B = 5 :: c :: r0 :: 3 :: n :: t ∧ (c = 1 ∨ c = 2 ∨ c = 3) ∧
      n + 2 ≤ t.length ∧
      hd = { Version := 5, Command := c, Reserved := r0,
             Address := { FQDN := t.take n, IP := [],
                          Port := buildPort (t.getD n 0) (t.getD (n + 1) 0) },
             addrType := 3 } ∧ rest = t.drop (n + 2)) := by
  match B with
  | [] => rw [parse_nil] at h; simp at h
  | [b] => rw [parse_one] at h; simp at h
  | b0 :: b1 :: t =>
    by_cases hv : b0 ≠ 5 ∧ b0 ≠ 4
    · rw [parse_vbad hv] at h; simp at h
    · have hv' : b0 = 5 ∨ b0 = 4 := by omega
      by_cases hc : b1 ≠ 1 ∧ b1 ≠ 2 ∧ b1 ≠ 3
      · rw [parse_cbad hv' hc] at h; simp at h
      · have hc' : b1 = 1 ∨ b1 = 2 ∨ b1 = 3 := by omega
        rcases hv' with hv5 | hv4
        · -- SOCKS5
          subst hv5
          rw [parse_v5 hc'] at h
          match t with
          | [] => rw [parseSocks5_short (by simp)] at h; simp at h
          | [r0] => rw [parseSocks5_short (by simp)] at h; simp at h
          | r0 :: a :: t' =>
            rw [parseSocks5_cons] at h
            by_cases ha3 : a = 3
            · subst ha3
              rw [if_pos rfl] at h
              match t' with
              | [] => rw [parseFqdn_nil] at h; simp at h
              | n :: t'' =>
                by_cases hlen : n + 2 ≤ t''.length
                · rw [parseFqdn_ok hlen] at h
                  simp only [Prod.mk.injEq, Except.ok.injEq] at h
                  right; right; right
                  exact ⟨b1, r0, n, t'', rfl, hc', hlen, h.1.symm, h.2.symm⟩
                · rw [parseFqdn_cons_short (by omega)] at h; simp at h
            · rw [if_neg ha3] at h
              by_cases ha1 : a = 1
              · subst ha1
                rw [if_pos rfl] at h
                by_cases hlen : 6 ≤ t'.length
                · rw [parseIPv4_ok hlen] at h
                  simp only [Prod.mk.injEq, Except.ok.injEq] at h
                  right; left
                  exact ⟨b1, r0, t', rfl, hc', hlen, h.1.symm, h.2.symm⟩
                · rw [parseIPv4_short (by omega)] at h; simp at h
              · rw [if_neg ha1] at h
                by_cases ha4 : a = 4
                · subst ha4
                  rw [if_pos rfl] at h
                  by_cases hlen : 18 ≤ t'.length
                  · rw [parseIPv6_ok hlen] at h
                    simp only [Prod.mk.injEq, Except.ok.injEq] at h
                    right; right; left
                    exact ⟨b1, r0, t', rfl, hc', hlen, h.1.symm, h.2.symm⟩
                  · rw [parseIPv6_short (by omega)] at h; simp at h
                · rw [if_neg ha4] at h
                  simp [unrecognizedAddrTypeErr] at h
        · -- SOCKS4
          subst hv4
          have hc2 : b1 = 1 ∨ b1 = 2 := by
            rcases hc' with h1 | h2 | h3
            · exact Or.inl h1
            · exact Or.inr h2
            · subst h3; rw [parse_v4c3] at h; simp at h
          rw [parse_v4 hc2] at h
          by_cases hlen : 6 ≤ t.length
          · rw [parseSocks4_ok hlen] at h
            simp only [Prod.mk.injEq, Except.ok.injEq] at h
            left
            exact ⟨b1, t, rfl, hc2, hlen, h.1.symm, h.2.symm⟩
          · rw [parseSocks4_short (by omega)] at h; simp at h

/-! ### C1: decode/encode round-trip -/

/-- C1: for every byte stream that `Parse` successfully decodes into a header,
re-encoding the header with `Header.Bytes` reproduces exactly the consumed
bytes: `hd.Bytes ++ rest = B` for both versions and all three SOCKS5 address
types. -/
theorem c1_parse_bytes_roundtrip {B : List Nat} {hd : Header} {rest : List Nat}
    (hB : ∀ b ∈ B, b < 256) (h : Parse B = (.ok hd, rest)) :
    hd.Bytes ++ rest = B := by
  rcases parse_ok_shape h with
    ⟨c, t, rfl, hc, hlen, rfl, rfl⟩ | ⟨c, r0, t, rfl, hc, hlen, rfl, rfl⟩ |
    ⟨c, r0, t, rfl, hc, hlen, rfl, rfl⟩ | ⟨c, r0, n, t, rfl, hc, hlen, rfl, rfl⟩
  · -- SOCKS4
    have h0 : t.getD 0 0 < 256 :=
      hB _ (List.mem_cons_of_mem _ (List.mem_cons_of_mem _ (getD_mem t (by omega))))
    have h1 : t.getD 1 0 < 256 :=
      hB _ (List.mem_cons_of_mem _ (List.mem_cons_of_mem _ (getD_mem t (by omega))))
    rw [bytes_v4, breakPort_buildPort _ _ h0 h1]
    have e1 : (t.take 6).drop 2 = (t.drop 2).take 4 := (List.take_drop 2 4 t).symm
    have e2 : t.take 2 = [t.getD 0 0, t.getD 1 0] := take_two_eq t (by omega)
    conv_rhs => rw [← List.take_append_drop 6 t, take_add_eq t 2 4, e2]
    simp [e1]
  · -- SOCKS5 IPv4
    have h4 : t.getD 4 0 < 256 := by
      refine hB _ ?_
      simp only [List.mem_cons]
      exact Or.inr (Or.inr (Or.inr (Or.inr (getD_mem t (by omega)))))
    have h5 : t.getD 5 0 < 256 := by
      refine hB _ ?_
      simp only [List.mem_cons]
      exact Or.inr (Or.inr (Or.inr (Or.inr (getD_mem t (by omega)))))
    rw [bytes_v5_ipv4, breakPort_buildPort _ _ h4 h5,
      ipTo4_len4 (by simp [List.length_take]; omega)]
    have e4 : t.take 5 = t.take 4 ++ [t.getD 4 0] := take_succ_getD t (by omega)
    have e5 : t.take 6 = t.take 5 ++ [t.getD 5 0] := take_succ_getD t (by omega)
    conv_rhs => rw [← List.take_append_drop 6 t, e5, e4]
    simp
  · -- SOCKS5 IPv6
    have h16 : t.getD 16 0 < 256 := by
      refine hB _ ?_
      simp only [List.mem_cons]
      exact Or.inr (Or.inr (Or.inr (Or.inr (getD_mem t (by omega)))))
    have h17 : t.getD 17 0 < 256 := by
      refine hB _ ?_
      simp only [List.mem_cons]
      exact Or.inr (Or.inr (Or.inr (Or.inr (getD_mem t (by omega)))))
    rw [bytes_v5_ipv6, breakPort_buildPort _ _ h16 h17,
      ipTo16_len16 (by simp [List.length_take]; omega)]
    have e16 : t.take 17 = t.take 16 ++ [t.getD 16 0] := take_succ_getD t (by omega)
    have e17 : t.take 18 = t.take 17 ++ [t.getD 17 0] := take_succ_getD t (by omega)
    conv_rhs => rw [← List.take_append_drop 18 t, e17, e16]
    simp
  · -- SOCKS5 domain
    have hn : n < 256 := hB _ (by simp)
    have hp0 : t.getD n 0 < 256 := by
      refine hB _ ?_
      simp only [List.mem_cons]
      exact Or.inr (Or.inr (Or.inr (Or.inr (Or.inr (getD_mem t (by omega))))))
    have hp1 : t.getD (n + 1) 0 < 256 := by
      refine hB _ ?_
      simp only [List.mem_cons]
      exact Or.inr (Or.inr (Or.inr (Or.inr (Or.inr (getD_mem t (by omega))))))
    rw [bytes_v5_fqdn, breakPort_buildPort _ _ hp0 hp1]
    have hlen' : (t.take n).length = n := by simp [List.length_take]; omega
    rw [hlen', Nat.mod_eq_of_lt hn]
    have e0 : t.take (n + 1) = t.take n ++ [t.getD n 0] := take_succ_getD t (by omega)
    have e1 : t.take (n + 2) = t.take (n + 1) ++ [t.getD (n + 1) 0] :=
      take_succ_getD t (by omega)
    conv_rhs => rw [← List.take_append_drop (n + 2) t, e1, e0]
    simp

/-! ### C1 witness -/

/-- Witness for C1 at the spec's end-to-end SOCKS5/IPv4 example. -/
theorem c1_parse_bytes_roundtrip_witness :
    Header.Bytes ⟨5, 1, 0, ⟨[], [127, 0, 0, 1], 8080⟩, 1⟩ ++ ([] : List Nat) =
      [5, 1, 0, 1, 127, 0, 0, 1, 31, 144] :=
  c1_parse_bytes_roundtrip (by decide) rfl

/-! ### Error-class helpers -/

theorem head_data_append (p s : String) (c : Char) (h : p.data.head? = some c) :
    (p ++ s).data.head? = some c := by
  rw [String.data_append, List.head?_append, h]
  rfl

theorem truncErrB_failed (pre s : String) (h : pre.data.head? = some 'f') :
    truncErrB (.errorf (pre ++ s)) = true := by
  show ((pre ++ s).data.head? == some 'f') = true
  rw [head_data_append pre s 'f' h]
  rfl

theorem truncErrB_version (s : String) :
    truncErrB (.errorf ("unrecognized SOCKS version[" ++ s ++ "]")) = false := by
  have h1 : ("unrecognized SOCKS version[" ++ s).data.head? = some 'u' :=
    head_data_append _ _ _ (by rfl)
  show (("unrecognized SOCKS version[" ++ s ++ "]").data.head? == some 'f') = false
  rw [head_data_append _ "]" _ h1]
  rfl

theorem truncErrB_command (s : String) :
    truncErrB (.errorf ("unrecognized command[" ++ s ++ "]")) = false := by
  have h1 : ("unrecognized command[" ++ s).data.head? = some 'u' :=
    head_data_append _ _ _ (by rfl)
  show (("unrecognized command[" ++ s ++ "]").data.head? == some 'f') = false
  rw [head_data_append _ "]" _ h1]
  rfl

/-! ### C2: error surfacing (amended) -/

/-- C2 (amended): every failure of `Parse` is either the sentinel
`unrecognizedAddrType` or a `fmt.Errorf` message string; the short-read
failures are exactly those whose message starts with `f` (`failed to get ...`),
and they are semantically truncations: extending the input can change the
error, while every content-validation failure (version, command,
version/command mismatch, address type) is stable under arbitrary extension of
the stream. -/
theorem c2_error_classes {B : List Nat} {e : GoErr} {r : List Nat}
    (h : Parse B = (.error e, r)) :
    (e = .unrecognizedAddrType ∨ ∃ m, e = .errorf m) ∧
    (truncErrB e = true → ∃ C, (Parse (B ++ C)).1 ≠ .error e) ∧
    (truncErrB e = false → ∀ C, (Parse (B ++ C)).1 = .error e) := by
  match B with
  | [] =>
    rw [parse_nil] at h
    simp only [Prod.mk.injEq, Except.error.injEq] at h
    obtain ⟨he, hr⟩ := h
    subst he
    refine ⟨Or.inr ⟨_, rfl⟩, ?_, ?_⟩
    · intro _
      exact ⟨[4, 1, 0, 0, 0, 0, 0, 0], by decide⟩
    · intro hf
      exact absurd hf (by decide)
  | [b] =>
    rw [parse_one] at h
    simp only [Prod.mk.injEq, Except.error.injEq] at h
    obtain ⟨he, hr⟩ := h
    subst he
    refine ⟨Or.inr ⟨_, rfl⟩, ?_, ?_⟩
    · intro _
      by_cases hb4 : b = 4
      · subst hb4
        exact ⟨[1, 0, 0, 0, 0, 0, 0], by decide⟩
      · by_cases hb5 : b = 5
        · subst hb5
          exact ⟨[1, 0, 1, 0, 0, 0, 0, 0, 0], by decide⟩
        · refine ⟨[1], ?_⟩
          have hsh : ([b] ++ [1] : List Nat) = b :: 1 :: [] := rfl
          rw [hsh, parse_vbad ⟨hb5, hb4⟩]
          intro heq
          simp only [Except.error.injEq, GoErr.errorf.injEq] at heq
          have h1 : ("unrecognized SOCKS version[" ++ toString b).data.head? = some 'u' :=
            head_data_append _ _ _ (by rfl)
          have h2 := head_data_append _ "]" _ h1
          rw [heq] at h2
          exact absurd h2 (by decide)
    · intro hf
      exact absurd hf (by decide)
  | b0 :: b1 :: t =>
    by_cases hv : b0 ≠ 5 ∧ b0 ≠ 4
    · rw [parse_vbad hv] at h
      simp only [Prod.mk.injEq, Except.error.injEq] at h
      obtain ⟨he, hr⟩ := h
      subst he
      refine ⟨Or.inr ⟨_, rfl⟩, ?_, ?_⟩
      · intro htr
        rw [truncErrB_version] at htr
        exact Bool.noConfusion htr
      · intro _ C
        have hsh : (b0 :: b1 :: t) ++ C = b0 :: b1 :: (t ++ C) := rfl
        rw [hsh, parse_vbad hv]
    · have hv' : b0 = 5 ∨ b0 = 4 := by omega
      by_cases hc : b1 ≠ 1 ∧ b1 ≠ 2 ∧ b1 ≠ 3
      · rw [parse_cbad hv' hc] at h
        simp only [Prod.mk.injEq, Except.error.injEq] at h
        obtain ⟨he, hr⟩ := h
        subst he
        refine ⟨Or.inr ⟨_, rfl⟩, ?_, ?_⟩
        · intro htr
          rw [truncErrB_command] at htr
          exact Bool.noConfusion htr
        · intro _ C
          have hsh : (b0 :: b1 :: t) ++ C = b0 :: b1 :: (t ++ C) := rfl
          rw [hsh, parse_cbad hv' hc]
      · have hc' : b1 = 1 ∨ b1 = 2 ∨ b1 = 3 := by omega
        rcases hv' with hv5 | hv4
        · -- SOCKS5
          subst hv5
          rw [parse_v5 hc'] at h
          match t with
          | [] =>
            rw [parseSocks5_short (by simp)] at h
            simp only [Prod.mk.injEq, Except.error.injEq] at h
            obtain ⟨he, hr⟩ := h
            subst he
            refine ⟨Or.inr ⟨_, rfl⟩, ?_, ?_⟩
            · intro _
              refine ⟨[0, 1, 0, 0, 0, 0, 0, 0], ?_⟩
              have hsh : (5 :: b1 :: ([] : List Nat)) ++ [0, 1, 0, 0, 0, 0, 0, 0] =
                  5 :: b1 :: (0 :: 1 :: [0, 0, 0, 0, 0, 0]) := rfl
              rw [hsh, parse_v5 hc', parseSocks5_cons, if_neg (by decide), if_pos rfl,
                parseIPv4_ok (by simp)]
              simp
            · intro hf
              rw [truncErrB_failed _ _ (by rfl)] at hf
              exact Bool.noConfusion hf
          | [r0] =>
            rw [parseSocks5_short (by simp)] at h
            simp only [Prod.mk.injEq, Except.error.injEq] at h
            obtain ⟨he, hr⟩ := h
            subst he
            refine ⟨Or.inr ⟨_, rfl⟩, ?_, ?_⟩
            · intro _
              refine ⟨[1, 0, 0, 0, 0, 0, 0], ?_⟩
              have hsh : (5 :: b1 :: [r0]) ++ [1, 0, 0, 0, 0, 0, 0] =
                  5 :: b1 :: (r0 :: 1 :: [0, 0, 0, 0, 0, 0]) := rfl
              rw [hsh, parse_v5 hc', parseSocks5_cons, if_neg (by decide), if_pos rfl,
                parseIPv4_ok (by simp)]
              simp
            · intro hf
              rw [truncErrB_failed _ _ (by rfl)] at hf
              exact Bool.noConfusion hf
          | r0 :: a :: t' =>
            rw [parseSocks5_cons] at h
            by_cases ha3 : a = 3
            · subst ha3
              rw [if_pos rfl] at h
              match t' with
              | [] =>
                rw [parseFqdn_nil] at h
                simp only [Prod.mk.injEq, Except.error.injEq] at h
                obtain ⟨he, hr⟩ := h
                subst he
                refine ⟨Or.inr ⟨_, rfl⟩, ?_, ?_⟩
                · intro _
                  refine ⟨[0, 0, 0], ?_⟩
                  have hsh : (5 :: b1 :: r0 :: 3 :: ([] : List Nat)) ++ [0, 0, 0] =
                      5 :: b1 :: (r0 :: 3 :: (0 :: [0, 0])) := rfl
                  rw [hsh, parse_v5 hc', parseSocks5_cons, if_pos rfl,
                    parseFqdn_ok (by simp)]
                  simp
                · intro hf
                  exact absurd hf (by decide)
              | n :: t'' =>
                by_cases hlen : n + 2 ≤ t''.length
                · rw [parseFqdn_ok hlen] at h
                  simp at h
                · rw [parseFqdn_cons_short (by omega)] at h
                  simp only [Prod.mk.injEq, Except.error.injEq] at h
                  obtain ⟨he, hr⟩ := h
                  subst he
                  refine ⟨Or.inr ⟨_, rfl⟩, ?_, ?_⟩
                  · intro _
                    refine ⟨List.replicate (n + 2 - t''.length) 0, ?_⟩
                    have hsh : (5 :: b1 :: r0 :: 3 :: n :: t'') ++
                          List.replicate (n + 2 - t''.length) 0 =
                        5 :: b1 :: (r0 :: 3 ::
                          (n :: (t'' ++ List.replicate (n + 2 - t''.length) 0))) := by simp
                    rw [hsh, parse_v5 hc', parseSocks5_cons, if_pos rfl,
                      parseFqdn_ok (by simp [List.length_append]; omega)]
                    simp
                  · intro hf
                    rw [truncErrB_failed _ _ (by rfl)] at hf
                    exact Bool.noConfusion hf
            · rw [if_neg ha3] at h
              by_cases ha1 : a = 1
              · subst ha1
                rw [if_pos rfl] at h
                by_cases hlen : 6 ≤ t'.length
                · rw [parseIPv4_ok hlen] at h
                  simp at h
                · rw [parseIPv4_short (by omega)] at h
                  simp only [Prod.mk.injEq, Except.error.injEq] at h
                  obtain ⟨he, hr⟩ := h
                  subst he
                  refine ⟨Or.inr ⟨_, rfl⟩, ?_, ?_⟩
                  · intro _
                    refine ⟨List.replicate (6 - t'.length) 0, ?_⟩
                    have hsh : (5 :: b1 :: r0 :: 1 :: t') ++
                          List.replicate (6 - t'.length) 0 =
                        5 :: b1 :: (r0 :: 1 ::
                          (t' ++ List.replicate (6 - t'.length) 0)) := by simp
                    rw [hsh, parse_v5 hc', parseSocks5_cons, if_neg (by decide), if_pos rfl,
                      parseIPv4_ok (by simp [List.length_append]; omega)]
                    simp
                  · intro hf
                    rw [truncErrB_failed _ _ (by rfl)] at hf
                    exact Bool.noConfusion hf
              · rw [if_neg ha1] at h
                by_cases ha4 : a = 4
                · subst ha4
                  rw [if_pos rfl] at h
                  by_cases hlen : 18 ≤ t'.length
                  · rw [parseIPv6_ok hlen] at h
                    simp at h
                  · rw [parseIPv6_short (by omega)] at h
                    simp only [Prod.mk.injEq, Except.error.injEq] at h
                    obtain ⟨he, hr⟩ := h
                    subst he
                    refine ⟨Or.inr ⟨_, rfl⟩, ?_, ?_⟩
                    · intro _
                      refine ⟨List.replicate (18 - t'.length) 0, ?_⟩
                      have hsh : (5 :: b1 :: r0 :: 4 :: t') ++
                            List.replicate (18 - t'.length) 0 =
                          5 :: b1 :: (r0 :: 4 ::
                            (t' ++ List.replicate (18 - t'.length) 0)) := by simp
                      rw [hsh, parse_v5 hc', parseSocks5_cons, if_neg (by decide),
                        if_neg (by decide), if_pos rfl,
                        parseIPv6_ok (by simp [List.length_append]; omega)]
                      simp
                    · intro hf
                      rw [truncErrB_failed _ _ (by rfl)] at hf
                      exact Bool.noConfusion hf
                · rw [if_neg ha4] at h
                  simp only [Prod.mk.injEq, Except.error.injEq] at h
                  obtain ⟨he, hr⟩ := h
                  subst he
                  refine ⟨Or.inl rfl, ?_, ?_⟩
                  · intro htr
                    exact absurd htr (by decide)
                  · intro _ C
                    have hsh : (5 :: b1 :: r0 :: a :: t') ++ C =
                        5 :: b1 :: (r0 :: a :: (t' ++ C)) := rfl
                    rw [hsh, parse_v5 hc', parseSocks5_cons, if_neg ha3, if_neg ha1,
                      if_neg ha4]
        · -- SOCKS4
          subst hv4
          by_cases hb13 : b1 = 3
          · subst hb13
            rw [parse_v4c3] at h
            simp only [Prod.mk.injEq, Except.error.injEq] at h
            obtain ⟨he, hr⟩ := h
            subst he
            refine ⟨Or.inr ⟨_, rfl⟩, ?_, ?_⟩
            · intro htr
              exact absurd htr (by decide)
            · intro _ C
              have hsh : (4 :: 3 :: t) ++ C = 4 :: 3 :: (t ++ C) := rfl
              rw [hsh, parse_v4c3]
          · have hc2 : b1 = 1 ∨ b1 = 2 := by omega
            rw [parse_v4 hc2] at h
            by_cases hlen : 6 ≤ t.length
            · rw [parseSocks4_ok hlen] at h
              simp at h
            · rw [parseSocks4_short (by omega)] at h
              simp only [Prod.mk.injEq, Except.error.injEq] at h
              obtain ⟨he, hr⟩ := h
              subst he
              refine ⟨Or.inr ⟨_, rfl⟩, ?_, ?_⟩
              · intro _
                refine ⟨List.replicate (6 - t.length) 0, ?_⟩
                have hsh : (4 :: b1 :: t) ++ List.replicate (6 - t.length) 0 =
                    4 :: b1 :: (t ++ List.replicate (6 - t.length) 0) := rfl
                rw [hsh, parse_v4 hc2,
                  parseSocks4_ok (by simp [List.length_append]; omega)]
                simp
              · intro hf
                rw [truncErrB_failed _ _ (by rfl)] at hf
                exact Bool.noConfusion hf

/-- C2 counterexample: at the concrete input `[]` (stream closed before the
version/command read) the parser fails with a plain `fmt.Errorf` message
string; it does not fail with the package's only distinct sentinel error
value, so the failure carries no typed classification. -/
theorem c2_error_classes_counterexample :
    Parse [] = (.error (.errorf "failed to get header version and command, EOF"), []) ∧
    GoErr.errorf "failed to get header version and command, EOF" ≠
      GoErr.unrecognizedAddrType :=
  ⟨rfl, by decide⟩

/-- Witness for C2 at the concrete failing input `[6, 1]`. -/
theorem c2_error_classes_witness :
    (Parse ([6, 1] ++ [9])).1 = .error (.errorf "unrecognized SOCKS version[6]") :=
  (c2_error_classes (B := [6, 1]) (by rfl)).2.2 (by decide) [9]

/-! ### C3: version and command validation -/

/-- C3: after the first two bytes are read, a version outside 4 and 5 fails
with the unsupported-version error, then a command outside 1, 2, 3 fails with
the unsupported-command error, then version 4 with command 3 fails with the
version/command mismatch error; otherwise `Parse` proceeds to the address
fields (it succeeds or fails only with a later read error or the
address-type sentinel). -/
theorem c3_version_command_checks (b0 b1 : Nat) (t : List Nat) :
    ((b0 ≠ 4 ∧ b0 ≠ 5) →
      Parse (b0 :: b1 :: t) =
        (.error (.errorf ("unrecognized SOCKS version[" ++ toString b0 ++ "]")), t)) ∧
    ((b0 = 4 ∨ b0 = 5) → (b1 ≠ 1 ∧ b1 ≠ 2 ∧ b1 ≠ 3) →
      Parse (b0 :: b1 :: t) =
        (.error (.errorf ("unrecognized command[" ++ toString b1 ++ "]")), t)) ∧
    (b0 = 4 → b1 = 3 →
      Parse (b0 :: b1 :: t) = (.error (.errorf "wrong version for command"), t)) ∧
    ((b0 = 4 ∨ b0 = 5) → (b1 = 1 ∨ b1 = 2 ∨ b1 = 3) → ¬(b0 = 4 ∧ b1 = 3) →
      ((∃ hd rest, Parse (b0 :: b1 :: t) = (.ok hd, rest)) ∨
       (Parse (b0 :: b1 :: t)).1 = .error unrecognizedAddrTypeErr ∨
       (∃ m, (Parse (b0 :: b1 :: t)).1 =
          .error (.errorf ("failed to get socks4 header port and ip, " ++ m))) ∨
       (∃ m, (Parse (b0 :: b1 :: t)).1 =
          .error (.errorf ("failed to get header RSV and address type, " ++ m))) ∨
       (∃ m, (Parse (b0 :: b1 :: t)).1 =
          .error (.errorf ("failed to get header, " ++ m))))) := by
  refine ⟨?_, ?_, ?_, ?_⟩
  · intro hbad
    exact parse_vbad ⟨hbad.2, hbad.1⟩ b1 t
  · intro hv hc
    exact parse_cbad hv.symm hc t
  · intro h4 h3
    subst h4; subst h3
    exact parse_v4c3 t
  · intro hv hc hn
    rcases hv with hv4 | hv5
    · -- version 4
      subst hv4
      have hc2 : b1 = 1 ∨ b1 = 2 := by
        rcases hc with h | h | h
        · exact Or.inl h
        · exact Or.inr h
        · exact absurd ⟨rfl, h⟩ hn
      rw [parse_v4 hc2]
      by_cases hlen : 6 ≤ t.length
      · rw [parseSocks4_ok hlen]
        exact Or.inl ⟨_, _, rfl⟩
      · rw [parseSocks4_short (by omega)]
        exact Or.inr (Or.inr (Or.inl ⟨_, rfl⟩))
    · -- version 5
      subst hv5
      rw [parse_v5 hc]
      match t with
      | [] =>
        rw [parseSocks5_short (by simp)]
        exact Or.inr (Or.inr (Or.inr (Or.inl ⟨_, rfl⟩)))
      | [r0] =>
        rw [parseSocks5_short (by simp)]
        exact Or.inr (Or.inr (Or.inr (Or.inl ⟨_, rfl⟩)))
      | r0 :: a :: t' =>
        rw [parseSocks5_cons]
        by_cases ha3 : a = 3
        · subst ha3
          rw [if_pos rfl]
          match t' with
          | [] =>
            rw [parseFqdn_nil]
            exact Or.inr (Or.inr (Or.inr (Or.inr ⟨"EOF", rfl⟩)))
          | n :: t'' =>
            by_cases hlen : n + 2 ≤ t''.length
            · rw [parseFqdn_ok hlen]
              exact Or.inl ⟨_, _, rfl⟩
            · rw [parseFqdn_cons_short (by omega)]
              exact Or.inr (Or.inr (Or.inr (Or.inr ⟨_, rfl⟩)))
        · rw [if_neg ha3]
          by_cases ha1 : a = 1
          · subst ha1
            rw [if_pos rfl]
            by_cases hlen : 6 ≤ t'.length
            · rw [parseIPv4_ok hlen]
              exact Or.inl ⟨_, _, rfl⟩
            · rw [parseIPv4_short (by omega)]
              exact Or.inr (Or.inr (Or.inr (Or.inr ⟨_, rfl⟩)))
          · rw [if_neg ha1]
            by_cases ha4 : a = 4
            · subst ha4
              rw [if_pos rfl]
              by_cases hlen : 18 ≤ t'.length
              · rw [parseIPv6_ok hlen]
                exact Or.inl ⟨_, _, rfl⟩
              · rw [parseIPv6_short (by omega)]
                exact Or.inr (Or.inr (Or.inr (Or.inr ⟨_, rfl⟩)))
            · rw [if_neg ha4]
              exact Or.inr (Or.inl rfl)

/-- Witness for C3: the spec's two examples, a stream beginning with byte 6
fails with the unsupported-version error; a stream beginning 4, 3 fails with
the version/command mismatch error. -/
theorem c3_version_command_checks_witness :
    Parse [6, 2, 7] = (.error (.errorf "unrecognized SOCKS version[6]"), [7]) ∧
    Parse [4, 3, 7] = (.error (.errorf "wrong version for command"), [7]) :=
  ⟨(c3_version_command_checks 6 2 [7]).1 (by decide),
   (c3_version_command_checks 4 3 [7]).2.2.1 rfl rfl⟩

/-! ### C4: unsupported SOCKS5 address type -/

/-- C4: a version-5 stream with a valid command whose fourth byte is not 1, 3
or 4 fails with the `unrecognizedAddrType` sentinel, having consumed exactly
the first 4 bytes (the rest of the stream is left untouched). -/
theorem c4_unsupported_addr_type {b1 a : Nat} (hc : b1 = 1 ∨ b1 = 2 ∨ b1 = 3)
    (h1 : a ≠ 1) (h3 : a ≠ 3) (h4 : a ≠ 4) (r0 : Nat) (t : List Nat) :
    Parse (5 :: b1 :: r0 :: a :: t) = (.error unrecognizedAddrTypeErr, t) := by
  rw [parse_v5 hc, parseSocks5_cons, if_neg h3, if_neg h1, if_neg h4]

/-- Witness for C4 at the spec's example input beginning 5, 1, 0, 2. -/
theorem c4_unsupported_addr_type_witness :
    Parse [5, 1, 0, 2, 7, 7] = (.error unrecognizedAddrTypeErr, [7, 7]) :=
  c4_unsupported_addr_type (Or.inl rfl) (by decide) (by decide) (by decide) 0 [7, 7]

/-! ### C5: domain length handling -/

/-- C5: for version-5 domain-type input with a valid command, a length byte
`n` requires exactly `n + 2` further bytes: with at least that many the parse
succeeds consuming exactly `n + 2` of them, a length byte 0 yields an empty
domain with no error, and with fewer than `n + 2` bytes (in particular fewer
than 257 after length byte 255) the parse fails with the truncation error. -/
theorem c5_domain_length {b1 : Nat} (hc : b1 = 1 ∨ b1 = 2 ∨ b1 = 3) (r0 n : Nat)
    (suffix : List Nat) :
    (n + 2 ≤ suffix.length →
      Parse (5 :: b1 :: r0 :: 3 :: n :: suffix) =
        (.ok { Version := 5, Command := b1, Reserved := r0,
               Address := { FQDN := suffix.take n, IP := [],
                            Port := buildPort (suffix.getD n 0) (suffix.getD (n + 1) 0) },
               addrType := 3 }, suffix.drop (n + 2))) ∧
    (n = 0 → 2 ≤ suffix.length →
      ∃ hd rest, Parse (5 :: b1 :: r0 :: 3 :: n :: suffix) = (.ok hd, rest) ∧
        hd.Address.FQDN = []) ∧
    (suffix.length < n + 2 →
      Parse (5 :: b1 :: r0 :: 3 :: n :: suffix) =
        (.error (.errorf ("failed to get header, " ++
          ioErrString (if suffix.length = 0 then .eof else .unexpectedEOF))), [])) := by
  refine ⟨?_, ?_, ?_⟩
  · intro hlen
    rw [parse_v5 hc, parseSocks5_cons, if_pos rfl, parseFqdn_ok hlen]
  · intro hn hlen
    subst hn
    rw [parse_v5 hc, parseSocks5_cons, if_pos rfl, parseFqdn_ok (by omega)]
    exact ⟨_, _, rfl, by simp⟩
  · intro hlen
    rw [parse_v5 hc, parseSocks5_cons, if_pos rfl, parseFqdn_cons_short hlen]

/-- Witness for C5: length byte 0 decodes to an empty domain, and length byte
255 followed by a single byte is a truncation failure. -/
theorem c5_domain_length_witness :
    Parse [5, 1, 0, 3, 0, 0, 80] = (.ok ⟨5, 1, 0, ⟨[], [], 80⟩, 3⟩, []) ∧
    Parse [5, 1, 0, 3, 255, 9] =
      (.error (.errorf "failed to get header, unexpected EOF"), []) :=
  ⟨(c5_domain_length (Or.inl rfl) 0 0 [0, 80]).1 (by decide),
   (c5_domain_length (Or.inl rfl) 0 255 [9]).2.2 (by decide)⟩

/-! ### C6: the port codec -/

/-- C6: `buildPort hi lo` is the big-endian value `hi * 256 + lo`, a
non-negative integer at most 65535, with no sign extension; `breakPort` is its
exact inverse, and on any port in `[0, 65535]` `breakPort` splits into the high
and low byte and `buildPort` reassembles the original port. -/
theorem c6_port_codec (hi lo : Nat) (p : Int) (hhi : hi < 256) (hlo : lo < 256)
    (hp0 : 0 ≤ p) (hp1 : p ≤ 65535) :
    buildPort hi lo = ((256 * hi + lo : Nat) : Int) ∧
    0 ≤ buildPort hi lo ∧ buildPort hi lo ≤ 65535 ∧
    breakPort (buildPort hi lo) = (hi, lo) ∧
    breakPort p = ((p / 256).toNat, (p % 256).toNat) ∧
    buildPort (breakPort p).1 (breakPort p).2 = p := by
  refine ⟨buildPort_eq hi lo hlo, buildPort_nonneg hi lo, buildPort_le hi lo hhi hlo,
    breakPort_buildPort hi lo hhi hlo, ?_, ?_⟩
  · unfold breakPort goByte goShr8
    rw [Int.fdiv_eq_ediv _ (by norm_num)]
    have h1 : (p / 256 % 256).toNat = (p / 256).toNat := by omega
    rw [h1]
  · unfold breakPort goByte goShr8
    rw [Int.fdiv_eq_ediv _ (by norm_num)]
    rw [buildPort_eq _ _ (by omega)]
    omega

/-- Witness for C6 at the boundary ports 65535 and 0. -/
theorem c6_port_codec_witness :
    breakPort (buildPort 255 255) = (255, 255) ∧
    breakPort (buildPort 0 0) = (0, 0) :=
  ⟨(c6_port_codec 255 255 0 (by decide) (by decide) (by decide) (by decide)).2.2.2.1,
   (c6_port_codec 0 0 0 (by decide) (by decide) (by decide) (by decide)).2.2.2.1⟩

/-! ### C7: address byte counts of the encoder (amended) -/

/-- C7 counterexample: a version-4 header whose IP field holds 3 bytes is
serialized with exactly those 3 raw address bytes, not 4: the encoder never
forces the version-4 address to 4 bytes. -/
theorem c7_address_byte_counts_counterexample :
    Header.Bytes ⟨4, 1, 0, ⟨[], [1, 2, 3], 0⟩, 0⟩ = [4, 1, 0, 0, 1, 2, 3] ∧
    ((Header.Bytes ⟨4, 1, 0, ⟨[], [1, 2, 3], 0⟩, 0⟩).drop 4).length = 3 := by
  decide

/-- C7 (amended): for version 4 the encoder emits the raw IP bytes after the
port, so exactly 4 address bytes exactly when the IP field holds 4 bytes; for
version 5 the IPv4 address is passed through To4 (exactly 4 bytes when To4
succeeds, nothing otherwise) and the IPv6 address through To16 (exactly 16
bytes when the IP field holds 4 or 16 bytes, nothing otherwise). -/
theorem c7_address_byte_counts (h : Header) :
    (h.Version = 4 →
      h.Bytes = [4, h.Command, (breakPort h.Address.Port).1,
        (breakPort h.Address.Port).2] ++ h.Address.IP ∧
      (h.Address.IP.length = 4 → (h.Bytes.drop 4).length = 4)) ∧
    (h.Version = 5 → h.addrType = 1 →
      h.Bytes = [5, h.Command, h.Reserved, 1] ++ ipTo4 h.Address.IP ++
        [(breakPort h.Address.Port).1, (breakPort h.Address.Port).2] ∧
      ((ipTo4 h.Address.IP).length = 4 ∨ ipTo4 h.Address.IP = []) ∧
      (h.Address.IP.length = 4 → (ipTo4 h.Address.IP).length = 4)) ∧
    (h.Version = 5 → h.addrType = 4 →
      h.Bytes = [5, h.Command, h.Reserved, 4] ++ ipTo16 h.Address.IP ++
        [(breakPort h.Address.Port).1, (breakPort h.Address.Port).2] ∧
      ((ipTo16 h.Address.IP).length = 16 ∨ ipTo16 h.Address.IP = []) ∧
      (h.Address.IP.length = 4 ∨ h.Address.IP.length = 16 →
        (ipTo16 h.Address.IP).length = 16)) := by
  obtain ⟨v, cc, r0, ⟨fq, ip, p⟩, aty⟩ := h
  refine ⟨?_, ?_, ?_⟩
  · intro hv
    replace hv : v = 4 := hv
    subst hv
    refine ⟨bytes_v4 cc r0 aty fq ip p, ?_⟩
    intro hip
    rw [bytes_v4]
    simp [hip]
  · intro hv ha
    replace hv : v = 5 := hv
    replace ha : aty = 1 := ha
    subst hv; subst ha
    refine ⟨bytes_v5_ipv4 cc r0 fq ip p, ipTo4_len_or_nil ip, ?_⟩
    intro hip
    rw [ipTo4_len4 hip, hip]
  · intro hv ha
    replace hv : v = 5 := hv
    replace ha : aty = 4 := ha
    subst hv; subst ha
    refine ⟨bytes_v5_ipv6 cc r0 fq ip p, ipTo16_len_or_nil ip, ?_⟩
    rintro (hip | hip)
    · simp [ipTo16, hip, v4InV6]
    · rw [ipTo16_len16 hip, hip]

/-- Witness for C7 at a version-4 header with a 4-byte IP field. -/
theorem c7_address_byte_counts_witness :
    ((Header.Bytes ⟨4, 1, 0, ⟨[], [9, 8, 7, 6], 258⟩, 0⟩).drop 4).length = 4 :=
  ((c7_address_byte_counts ⟨4, 1, 0, ⟨[], [9, 8, 7, 6], 258⟩, 0⟩).1 rfl).2 rfl

/-! ### C8: invariants of parsed address specifications (amended) -/

/-- C8 counterexample: the 7-byte domain-type input with length byte 0 parses
successfully into an `AddrSpec` with an empty domain name and no IP: neither
field of the address is populated. -/
theorem c8_addrspec_invariant_counterexample :
    (Parse [5, 1, 0, 3, 0, 0, 80]).1 = .ok ⟨5, 1, 0, ⟨[], [], 80⟩, 3⟩ ∧
    (⟨[], [], 80⟩ : AddrSpec).FQDN = [] ∧ (⟨[], [], 80⟩ : AddrSpec).IP = [] := by
  decide

/-- C8 (amended): every `AddrSpec` produced by a successful parse has at most
one of domain name and IP populated, and its port lies in `[0, 65535]`; the IP
is populated (and the domain empty) except exactly in the domain-type case,
where the IP is empty and the domain holds exactly as many bytes as the
input's length byte (the fifth byte of the stream), so it is empty exactly
when the length byte was 0. -/
theorem c8_addrspec_invariant {B : List Nat} {hd : Header} {rest : List Nat}
    (hB : ∀ b ∈ B, b < 256) (h : Parse B = (.ok hd, rest)) :
    ¬(hd.Address.FQDN ≠ [] ∧ hd.Address.IP ≠ []) ∧
    0 ≤ hd.Address.Port ∧ hd.Address.Port ≤ 65535 ∧
    (hd.addrType ≠ 3 → hd.Address.IP ≠ [] ∧ hd.Address.FQDN = []) ∧
    (hd.addrType = 3 → hd.Address.IP = [] ∧
      hd.Address.FQDN.length = B.getD 4 0 ∧
      (hd.Address.FQDN = [] ↔ B.getD 4 0 = 0)) := by
  rcases parse_ok_shape h with
    ⟨c, t, rfl, hc, hlen, rfl, rfl⟩ | ⟨c, r0, t, rfl, hc, hlen, rfl, rfl⟩ |
    ⟨c, r0, t, rfl, hc, hlen, rfl, rfl⟩ | ⟨c, r0, n, t, rfl, hc, hlen, rfl, rfl⟩
  · -- SOCKS4
    have h0 : t.getD 0 0 < 256 :=
      hB _ (List.mem_cons_of_mem _ (List.mem_cons_of_mem _ (getD_mem t (by omega))))
    have h1 : t.getD 1 0 < 256 :=
      hB _ (List.mem_cons_of_mem _ (List.mem_cons_of_mem _ (getD_mem t (by omega))))
    have hiplen : ((t.take 6).drop 2).length = 4 := by
      simp [List.length_drop, List.length_take]
      omega
    refine ⟨by simp, buildPort_nonneg _ _, buildPort_le _ _ h0 h1, ?_, ?_⟩
    · intro _
      refine ⟨?_, rfl⟩
      intro hnil
      replace hnil : (t.take 6).drop 2 = [] := hnil
      rw [hnil] at hiplen
      simp at hiplen
    · intro h3
      replace h3 : (0 : Nat) = 3 := h3
      exact absurd h3 (by decide)
  · -- SOCKS5 IPv4
    have h4 : t.getD 4 0 < 256 := by
      refine hB _ ?_
      simp only [List.mem_cons]
      exact Or.inr (Or.inr (Or.inr (Or.inr (getD_mem t (by omega)))))
    have h5 : t.getD 5 0 < 256 := by
      refine hB _ ?_
      simp only [List.mem_cons]
      exact Or.inr (Or.inr (Or.inr (Or.inr (getD_mem t (by omega)))))
    have hiplen : (t.take 4).length = 4 := by
      simp [List.length_take]
      omega
    refine ⟨by simp, buildPort_nonneg _ _, buildPort_le _ _ h4 h5, ?_, ?_⟩
    · intro _
      refine ⟨?_, rfl⟩
      intro hnil
      replace hnil : t.take 4 = [] := hnil
      rw [hnil] at hiplen
      simp at hiplen
    · intro h3
      replace h3 : (1 : Nat) = 3 := h3
      exact absurd h3 (by decide)
  · -- SOCKS5 IPv6
    have h16 : t.getD 16 0 < 256 := by
      refine hB _ ?_
      simp only [List.mem_cons]
      exact Or.inr (Or.inr (Or.inr (Or.inr (getD_mem t (by omega)))))
    have h17 : t.getD 17 0 < 256 := by
      refine hB _ ?_
      simp only [List.mem_cons]
      exact Or.inr (Or.inr (Or.inr (Or.inr (getD_mem t (by omega)))))
    have hiplen : (t.take 16).length = 16 := by
      simp [List.length_take]
      omega
    refine ⟨by simp, buildPort_nonneg _ _, buildPort_le _ _ h16 h17, ?_, ?_⟩
    · intro _
      refine ⟨?_, rfl⟩
      intro hnil
      replace hnil : t.take 16 = [] := hnil
      rw [hnil] at hiplen
      simp at hiplen
    · intro h3
      replace h3 : (4 : Nat) = 3 := h3
      exact absurd h3 (by decide)
  · -- SOCKS5 domain
    have hp0 : t.getD n 0 < 256 := by
      refine hB _ ?_
      simp only [List.mem_cons]
      exact Or.inr (Or.inr (Or.inr (Or.inr (Or.inr (getD_mem t (by omega))))))
    have hp1 : t.getD (n + 1) 0 < 256 := by
      refine hB _ ?_
      simp only [List.mem_cons]
      exact Or.inr (Or.inr (Or.inr (Or.inr (Or.inr (getD_mem t (by omega))))))
    refine ⟨by simp, buildPort_nonneg _ _, buildPort_le _ _ hp0 hp1, ?_, ?_⟩
    · intro h3
      exact absurd rfl h3
    · intro _
      simp only [List.getD_cons_succ, List.getD_cons_zero]
      refine ⟨by trivial, ?_, ?_⟩
      · show (t.take n).length = n
        rw [List.length_take]
        omega
      · show t.take n = [] ↔ n = 0
        constructor
        · intro he
          have hl : (t.take n).length = 0 := by rw [he]; rfl
          rw [List.length_take] at hl
          omega
        · intro he
          subst he
          rfl

/-- Witness for C8 at the domain-type stream 5, 1, 0, 3, 1, 97, 0, 80 (length
byte 1, one domain byte, port 80). -/
theorem c8_addrspec_invariant_witness :
    ¬(([97] : List Nat) ≠ [] ∧ ([] : List Nat) ≠ []) ∧
    0 ≤ (80 : Int) ∧ (80 : Int) ≤ 65535 ∧
    ((3 : Nat) ≠ 3 → ([] : List Nat) ≠ [] ∧ ([97] : List Nat) = []) ∧
    ((3 : Nat) = 3 → ([] : List Nat) = [] ∧ ([97] : List Nat).length = 1 ∧
      (([97] : List Nat) = [] ↔ (1 : Nat) = 0)) :=
  c8_addrspec_invariant (B := [5, 1, 0, 3, 1, 97, 0, 80]) (by decide) rfl

/-! ### C9: dial-string rendering -/

/-- C9: `Address` renders the IP joined with the port whenever an IP is
present (even when a domain name is also populated); the domain name is used
only when no IP is present. -/
theorem c9_address_rendering (a : AddrSpec) :
    (a.IP ≠ [] → AddrSpec.Address a = joinHostPort (ipString a.IP) (itoa a.Port)) ∧
    (a.IP = [] → AddrSpec.Address a = joinHostPort a.FQDN (itoa a.Port)) := by
  constructor
  · intro h
    unfold AddrSpec.Address
    rw [if_pos (fun hl => h (List.length_eq_zero.mp hl))]
  · intro h
    unfold AddrSpec.Address
    rw [if_neg (by simp [h])]

/-- Witness for C9: an `AddrSpec` holding both a domain name and the IP
127.0.0.1 with port 8080 renders the IP-based dial string. -/
theorem c9_address_rendering_witness :
    AddrSpec.Address ⟨strBytes "example.com", [127, 0, 0, 1], 8080⟩ =
      strBytes "127.0.0.1:8080" :=
  ((c9_address_rendering ⟨strBytes "example.com", [127, 0, 0, 1], 8080⟩).1
    (by decide)).trans (by decide)

/-! ### C10: the domain length byte wraps modulo 256 -/

/-- C10: a version-5 domain-type header is serialized with a single length
byte equal to the domain length reduced modulo 256 followed by every domain
byte; the length byte equals the true length exactly when the domain holds at
most 255 bytes. -/
theorem c10_domain_length_byte (h : Header) (hv : h.Version = 5) (ha : h.addrType = 3) :
    h.Bytes = [5, h.Command, h.Reserved, 3, h.Address.FQDN.length % 256] ++
      h.Address.FQDN ++ [(breakPort h.Address.Port).1, (breakPort h.Address.Port).2] ∧
    (h.Address.FQDN.length ≤ 255 ↔ h.Address.FQDN.length % 256 = h.Address.FQDN.length) := by
  obtain ⟨v, cc, r0, ⟨fq, ip, p⟩, aty⟩ := h
  replace hv : v = 5 := hv
  replace ha : aty = 3 := ha
  subst hv; subst ha
  refine ⟨?_, by omega⟩
  have hb := bytes_v5_fqdn cc r0 fq ip p
  simpa using hb

set_option maxRecDepth 8192 in
/-- Witness for C10 at a 300-byte domain name: the length byte wraps to 44
while all 300 domain bytes are still emitted. -/
theorem c10_domain_length_byte_witness :
    Header.Bytes ⟨5, 1, 0, ⟨List.replicate 300 97, [], 80⟩, 3⟩ =
      [5, 1, 0, 3, 44] ++ List.replicate 300 97 ++ [0, 80] ∧
    ¬((List.replicate 300 97 : List Nat).length ≤ 255) :=
  ⟨(c10_domain_length_byte ⟨5, 1, 0, ⟨List.replicate 300 97, [], 80⟩, 3⟩ rfl rfl).1,
   by decide⟩
